import Mathlib

/-!
# Verification of `hybpiper/gene_recovery_heatmap.py`

A shallow embedding of the computational core of the gene-recovery
heatmap script: the length-table normalisation pipeline (`main`,
lines 170–214) and the dimension heuristic (`get_figure_dimensions`,
lines 61–93), together with proofs about them.

Numeric cells are modelled exactly: a pandas float cell is either a
(rational) number, positive or negative infinity, or NaN.  Division and
comparison follow the IEEE conventions pandas/numpy use for the
operations that actually occur in the script (`x / 0 = inf` for
`x > 0`, `0 / 0 = NaN`, and `NaN < 1`, `inf < 1` both `False`).
-/

namespace GeneRecoveryHeatmap

/-- A pandas cell value: an exact number, `+inf`, `-inf`, or `NaN`. -/
inductive PVal where
  | num : ℚ → PVal
  | pinf : PVal
  | ninf : PVal
  | nan : PVal
  deriving DecidableEq, Repr

/-- IEEE-style division on cell values, as performed by
`DataFrame.div` (line 173 of the source).  Only the `num / num` case is
exercised by the pipeline, the remaining cases follow IEEE conventions. -/
def PVal.div : PVal → PVal → PVal
  | PVal.num a, PVal.num b =>
      if b = 0 then
        (if a = 0 then PVal.nan else if 0 < a then PVal.pinf else PVal.ninf)
      else PVal.num (a / b)
  | PVal.nan, _ => PVal.nan
  | _, PVal.nan => PVal.nan
  | PVal.pinf, PVal.num b => if 0 ≤ b then PVal.pinf else PVal.ninf
  | PVal.ninf, PVal.num b => if 0 ≤ b then PVal.ninf else PVal.pinf
  | PVal.pinf, _ => PVal.nan
  | PVal.ninf, _ => PVal.nan
  | PVal.num a, PVal.pinf => if a = 0 then PVal.num 0 else PVal.num 0
  | PVal.num _, PVal.ninf => PVal.num 0

/-- IEEE-style strict comparison on cell values: any comparison with
`NaN` is `false` (this is what makes line 176 of the source replace
`NaN` and `inf` cells with `1`). -/
def PVal.lt : PVal → PVal → Bool
  | PVal.num a, PVal.num b => a < b
  | PVal.nan, _ => false
  | _, PVal.nan => false
  | PVal.pinf, _ => false
  | PVal.ninf, PVal.ninf => false
  | PVal.ninf, _ => true
  | PVal.num _, PVal.pinf => true
  | PVal.num _, PVal.ninf => false

/-- The parsed seq_lengths table, as produced by
`pd.read_csv(path, delimiter='\t')` (line 170): a header naming the
identifier column and the gene columns, and the data rows (identifier
value plus one numeric cell per gene column).  Row 0 is the reference
(`MeanLength`) row. -/
structure DataFrame where
  idColName : String
  geneCols : List String
  rows : List (String × List PVal)
  deriving Repr

/-- Element-wise division of a row of gene cells by the reference row
of gene cells (positional, as pandas column alignment is on the
pairwise-distinct column labels). -/
def divRow (refVals vs : List PVal) : List PVal :=
  (vs.zip refVals).map (fun p => p.1.div p.2)

/-- Line 173: `df.loc[:, df.columns[1]:] =
df.loc[:, df.columns[1]:].div(df.iloc[0][df.columns[1]:])` — every row
(including row 0 itself) has its gene cells divided by the original
row-0 gene cells. -/
def divideByRef (df : DataFrame) : DataFrame :=
  match df.rows with
  | [] => df
  | refRow :: _ =>
      { df with rows := df.rows.map (fun r => (r.1, divRow refRow.2 r.2)) }

/-- Line 176 on one cell: `df.where(df.loc[:, df.columns[1]:] < 1, 1,
inplace=True)` keeps a cell where `cell < 1` holds and replaces it with
`1` otherwise (in particular `NaN` and `inf` cells become `1`, since
`NaN < 1` and `inf < 1` are `False`).  With `inplace=True` pandas fills
the unaligned condition entries (the `Species` column) with `True`, so
identifier values are kept unchanged. -/
def clampCell (v : PVal) : PVal :=
  if v.lt (PVal.num 1) then v else PVal.num 1

/-- Line 176 on the whole frame. -/
def clampDf (df : DataFrame) : DataFrame :=
  { df with rows := df.rows.map (fun r => (r.1, r.2.map clampCell)) }

/-- Line 179: `df.drop(labels=0, axis=0, inplace=True)` — drop the
reference row (index label 0 of the default `RangeIndex`). -/
def dropRef (df : DataFrame) : DataFrame :=
  { df with rows := df.rows.tail }

/-- The long ("melted") form produced by `df.melt` (line 182) starting
at gene-column index `j`: for each value column in order, one output
row per input row, column-major. -/
def meltFrom (rows : List (String × List PVal)) : ℕ → List String → List (String × String × PVal)
  | _, [] => []
  | j, g :: gs =>
      rows.map (fun r => (r.1, g, r.2.getD j PVal.nan)) ++ meltFrom rows (j + 1) gs

/-- Line 182: `df.melt(id_vars=['Species'], var_name='gene_id',
value_name='percentage_recovery')`.  The identifier column name is
hard-coded as `'Species'`; melting a frame whose first column has any
other name raises a `KeyError` (the model covers frames whose gene
columns do not themselves contain a column named `'Species'`).
Line 185 (`pd.to_numeric`) is the identity on the numeric cells and is
omitted. -/
def melt (df : DataFrame) : Except String (List (String × String × PVal)) :=
  if df.idColName = "Species" then
    Except.ok (meltFrom df.rows 0 df.geneCols)
  else
    Except.error "KeyError: id_vars [Species] are not present in the DataFrame"

/-- The Recovery Matrix: the pivoted sample×gene frame.  `cellOf s g`
is the cell at row label `s` and column label `g`. -/
structure RecoveryMatrix where
  samples : List String
  genes : List String
  cellOf : String → String → PVal

/-- Lexicographic code-point comparison of character lists: this is
how Python compares the `str` labels that pandas sorts when it builds
the pivoted frame. -/
def lexLeChars : List Char → List Char → Bool
  | [], _ => true
  | _ :: _, [] => false
  | a :: as, b :: bs => if a = b then lexLeChars as bs else decide (a < b)

/-- Python string comparison `s <= t` (code-point lexicographic). -/
def strLe (s t : String) : Bool :=
  lexLeChars s.data t.data

/-- The relation form of `strLe`, for use with `List.insertionSort`. -/
def strLeR (s t : String) : Prop :=
  strLe s t = true

instance : DecidableRel strLeR := fun s t => by unfold strLeR; infer_instance

/-- Looking one `(sample, gene)` cell up in the long form (pandas keeps
the value of the unique matching long-form row; `NaN` for a missing
combination). -/
def lookupLong (long : List (String × String × PVal)) (s g : String) : PVal :=
  match long.find? (fun e => e.1 == s && e.2.1 == g) with
  | some e => e.2.2
  | none => PVal.nan

/-- The matrix `df.pivot` builds when its index is unique: row labels
are the sorted distinct sample names, column labels the sorted distinct
gene names (pandas constructs the `MultiIndex` levels as sorted
`Categorical` categories, so the pivoted frame is sorted
lexicographically on both axes, not in first-appearance order). -/
def pivotMatrix (long : List (String × String × PVal)) : RecoveryMatrix :=
  { samples := List.insertionSort strLeR (long.map (fun e => e.1)).dedup
    genes := List.insertionSort strLeR (long.map (fun e => e.2.1)).dedup
    cellOf := fun s g => lookupLong long s g }

/-- Line 188: `df.pivot(index='Species', columns='gene_id',
values='percentage_recovery')` — raises `ValueError` when some
(sample, gene) pair occurs twice. -/
def pivot (long : List (String × String × PVal)) : Except String RecoveryMatrix :=
  if (long.map (fun e => (e.1, e.2.1))).Nodup then
    Except.ok (pivotMatrix long)
  else
    Except.error "Index contains duplicate entries, cannot reshape"

/-- Lines 172–188 of `main`: normalise, clamp, drop the reference row,
melt and pivot. -/
def runPipeline (df : DataFrame) : Except String RecoveryMatrix :=
  (melt (dropRef (clampDf (divideByRef df)))).bind pivot

/-- The data rows the melt step actually sees. -/
def processedRows (df : DataFrame) : List (String × List PVal) :=
  (dropRef (clampDf (divideByRef df))).rows

/-- The long form of the processed table. -/
def longForm (df : DataFrame) : List (String × String × PVal) :=
  meltFrom (processedRows df) 0 df.geneCols

/-- Embedding of `get_figure_dimensions` (lines 61–93).  The four overrides arrive
from `argparse` as `None` or `int`; the source resolves each with
Python truthiness (`x if x else default`), so `None` *and* `0` fall
back to the default while any non-zero value (negative included) is
passed through unchanged.  `num_samples` is the number of index
entries and `num_genes` the number of columns of the pivoted frame.
Returns `(fig_length, figure_height, sample_text_size,
gene_id_text_size)`.  Python `/` is true division, modelled exactly
over `ℚ`. -/
def get_figure_dimensions (df : RecoveryMatrix)
    (figure_length figure_height sample_text_size gene_text_size : Option ℤ) :
    ℚ × ℚ × ℚ × ℚ :=
  let num_samples : ℚ := (df.samples.length : ℚ)
  let num_genes : ℚ := (df.genes.length : ℚ)
  let sampleTextSize : ℚ :=
    match sample_text_size with
    | some v => if v = 0 then 10 else (v : ℚ)
    | none => 10
  let geneIdTextSize : ℚ :=
    match gene_text_size with
    | some v => if v = 0 then 10 else (v : ℚ)
    | none => 10
  let figureHeight : ℚ :=
    match figure_height with
    | some v => if v = 0 then num_samples / 3 else (v : ℚ)
    | none => num_samples / 3
  let figLength : ℚ :=
    match figure_length with
    | some v => if v = 0 then num_genes / 3 else (v : ℚ)
    | none => num_genes / 3
  (figLength, figureHeight, sampleTextSize, geneIdTextSize)

/-- The keyword arguments the script passes to `sns.heatmap`
(line 201): `vmin=0`, no `vmax`, colour map `'bone_r'`. -/
structure HeatmapCall where
  vmin : Option ℚ
  vmax : Option ℚ
  cmap : String
  deriving DecidableEq, Repr

/-- Line 201: `heatmap = sns.heatmap(df, vmin=0, cmap=cmap)`. -/
def heatmapCallOf (_df : RecoveryMatrix) : HeatmapCall :=
  { vmin := some 0, vmax := none, cmap := "bone_r" }

/-- The `NaN`-ignoring maximum of two cell values (`np.nanmax` pairwise). -/
def PVal.nmax : PVal → PVal → PVal
  | PVal.nan, b => b
  | a, PVal.nan => a
  | PVal.pinf, _ => PVal.pinf
  | _, PVal.pinf => PVal.pinf
  | PVal.ninf, b => b
  | a, PVal.ninf => a
  | PVal.num a, PVal.num b => PVal.num (max a b)

/-- All cells of a Recovery Matrix, row-major. -/
def RecoveryMatrix.cells (m : RecoveryMatrix) : List PVal :=
  (m.samples.map (fun s => m.genes.map (fun g => m.cellOf s g))).flatten

/-- Computes `np.nanmax` over the matrix data, which is what seaborn uses as
the colour-scale anchor when `vmax` is not supplied (an all-`NaN` or
empty matrix yields `NaN`). -/
def matrixNanMax (m : RecoveryMatrix) : PVal :=
  m.cells.foldr PVal.nmax PVal.nan

/-- The upper colour-scale anchor seaborn actually uses for the call on
line 201: the explicit `vmax` when one is passed, otherwise the data
maximum. -/
def effectiveVmax (m : RecoveryMatrix) : PVal :=
  match (heatmapCallOf m).vmax with
  | some q => PVal.num q
  | none => matrixNanMax m

/-- Everything `main` computes after a successful pivot: the matrix,
the render dimensions, the heatmap arguments and the output path of
the saved image (line 212). -/
structure RunResult where
  matrix : RecoveryMatrix
  dims : ℚ × ℚ × ℚ × ℚ
  heatmap : HeatmapCall
  savedPath : String

/-- Embedding of `main` (lines 170–214), from the parsed table to the saved file:
any failure in the normalise/melt/pivot stage aborts the run before
`plt.savefig` is reached. -/
def mainRun (df : DataFrame)
    (figure_length figure_height sample_text_size gene_text_size : Option ℤ)
    (heatmapFilename heatmapFiletype : String) : Except String RunResult := do
  let m ← runPipeline df
  let d := get_figure_dimensions m figure_length figure_height sample_text_size gene_text_size
  pure { matrix := m
         dims := d
         heatmap := heatmapCallOf m
         savedPath := heatmapFilename ++ "." ++ heatmapFiletype }

/-- The files a run writes: the single heatmap image on success,
nothing on failure. -/
def writtenFiles (r : Except String RunResult) : List String :=
  match r with
  | Except.ok res => [res.savedPath]
  | Except.error _ => []

/-- Success test for `Except`. -/
def isOkE {ε α : Type} : Except ε α → Bool
  | Except.ok _ => true
  | Except.error _ => false

/-! ## Concrete tables and matrices used as test inputs -/

/-- The worked scenario of the spec: genes `geneA`, `geneB`, reference
lengths 100 and 200, two samples. -/
def scenarioTable : DataFrame :=
  { idColName := "Species"
    geneCols := ["geneA", "geneB"]
    rows := [("MeanLength", [PVal.num 100, PVal.num 200]),
             ("Sample1", [PVal.num 50, PVal.num 200]),
             ("Sample2", [PVal.num 150, PVal.num 50])] }

/-- A table whose gene columns and sample rows are not in
lexicographic order. -/
def unsortedTable : DataFrame :=
  { idColName := "Species"
    geneCols := ["geneB", "geneA"]
    rows := [("MeanLength", [PVal.num 100, PVal.num 100]),
             ("Zeb", [PVal.num 10, PVal.num 20]),
             ("Ann", [PVal.num 30, PVal.num 40])] }

/-- A table with a zero reference length for its single gene. -/
def zeroRefTable : DataFrame :=
  { idColName := "Species"
    geneCols := ["geneA"]
    rows := [("MeanLength", [PVal.num 0]),
             ("Sample1", [PVal.num 5])] }

/-- A table whose single recovery ratio is 1/2. -/
def halfTable : DataFrame :=
  { idColName := "Species"
    geneCols := ["geneA"]
    rows := [("MeanLength", [PVal.num 100]),
             ("Sample1", [PVal.num 50])] }

/-- The scenario table with the identifier column renamed. -/
def renamedIdTable : DataFrame :=
  { scenarioTable with idColName := "Sample" }

/-- A table with a duplicated sample identifier. -/
def dupSampleTable : DataFrame :=
  { idColName := "Species"
    geneCols := ["geneA"]
    rows := [("MeanLength", [PVal.num 100]),
             ("Sample1", [PVal.num 50]),
             ("Sample1", [PVal.num 60])] }

/-- The matrix a pipeline result carries, with an empty fallback. -/
def matrixOf (r : Except String RecoveryMatrix) : RecoveryMatrix :=
  match r with
  | Except.ok m => m
  | Except.error _ => { samples := [], genes := [], cellOf := fun _ _ => PVal.nan }

/-- A fixed 2-sample × 3-gene matrix shape used to exercise the
dimension heuristic. -/
def smallMatrix : RecoveryMatrix :=
  { samples := ["s1", "s2"]
    genes := ["g1", "g2", "g3"]
    cellOf := fun _ _ => PVal.num 1 }

/-- A fixed 30-sample × 60-gene matrix shape. -/
def bigMatrix : RecoveryMatrix :=
  { samples := List.replicate 30 "s"
    genes := List.replicate 60 "g"
    cellOf := fun _ _ => PVal.num 1 }

/-! ## The string order is a linear order -/

lemma lexLeChars_total : ∀ as bs : List Char, lexLeChars as bs = true ∨ lexLeChars bs as = true
  | [], _ => Or.inl rfl
  | _ :: _, [] => Or.inr rfl
  | a :: as, b :: bs => by
    by_cases h : a = b
    · subst h
      simpa [lexLeChars] using lexLeChars_total as bs
    · rcases lt_or_gt_of_ne h with hlt | hgt
      · left
        simp [lexLeChars, h, hlt]
      · right
        simp [lexLeChars, Ne.symm h, hgt]

lemma lexLeChars_trans :
    ∀ as bs cs : List Char,
      lexLeChars as bs = true → lexLeChars bs cs = true → lexLeChars as cs = true
  | [], _, _ => by
    intro _ _
    rfl
  | _ :: _, [], _ => by
    intro h _
    simp [lexLeChars] at h
  | _ :: _, _ :: _, [] => by
    intro _ h
    simp [lexLeChars] at h
  | a :: as, b :: bs, c :: cs => by
    intro h₁ h₂
    by_cases hab : a = b <;> by_cases hbc : b = c
    · subst hab
      subst hbc
      simp only [lexLeChars, if_pos rfl] at h₁ h₂ ⊢
      exact lexLeChars_trans as bs cs h₁ h₂
    · subst hab
      simp only [lexLeChars, if_pos rfl, if_neg hbc, decide_eq_true_eq] at h₂
      simp [lexLeChars, if_neg hbc, ne_of_lt h₂, h₂]
    · subst hbc
      simp only [lexLeChars, if_neg hab, decide_eq_true_eq] at h₁
      simp [lexLeChars, if_neg hab, ne_of_lt h₁, h₁]
    · simp only [lexLeChars, if_neg hab, decide_eq_true_eq] at h₁
      simp only [lexLeChars, if_neg hbc, decide_eq_true_eq] at h₂
      have hac : a < c := lt_trans h₁ h₂
      simp [lexLeChars, ne_of_lt hac, hac]

lemma lexLeChars_antisymm :
    ∀ as bs : List Char, lexLeChars as bs = true → lexLeChars bs as = true → as = bs
  | [], [] => by
    intro _ _
    rfl
  | [], _ :: _ => by
    intro _ h
    simp [lexLeChars] at h
  | _ :: _, [] => by
    intro h _
    simp [lexLeChars] at h
  | a :: as, b :: bs => by
    intro h₁ h₂
    by_cases hab : a = b
    · subst hab
      simp only [lexLeChars, if_pos rfl] at h₁ h₂
      rw [lexLeChars_antisymm as bs h₁ h₂]
    · simp only [lexLeChars, if_neg hab, decide_eq_true_eq] at h₁
      simp only [lexLeChars, if_neg (Ne.symm hab), decide_eq_true_eq] at h₂
      exact absurd h₂ (lt_asymm h₁)

instance : IsTotal String strLeR :=
  ⟨fun s t => lexLeChars_total s.data t.data⟩

instance : IsTrans String strLeR :=
  ⟨fun s t u h₁ h₂ => lexLeChars_trans s.data t.data u.data h₁ h₂⟩

instance : IsAntisymm String strLeR := by
  refine ⟨fun s t h₁ h₂ => ?_⟩
  cases s
  cases t
  exact congrArg String.mk (lexLeChars_antisymm _ _ h₁ h₂)

/-! ## Structure of the melted (long-form) table -/

/-- Every long-form entry comes from a data row and a gene column. -/
lemma mem_meltFrom {rows : List (String × List PVal)} :
    ∀ {gs : List String} {j : ℕ} {e : String × String × PVal}, e ∈ meltFrom rows j gs →
      ∃ r ∈ rows, ∃ k, k < gs.length ∧ e = (r.1, gs.getD k "", r.2.getD (j + k) PVal.nan)
  | [], _, _ => by
    intro h
    simp [meltFrom] at h
  | g :: gs, j, e => by
    intro h
    rw [meltFrom, List.mem_append] at h
    rcases h with h | h
    · rcases List.mem_map.mp h with ⟨r, hr, rfl⟩
      exact ⟨r, hr, 0, by simp⟩
    · rcases mem_meltFrom h with ⟨r, hr, k, hk, rfl⟩
      refine ⟨r, hr, k + 1, by simpa using hk, ?_⟩
      simp [List.getD_cons_succ]
      ring_nf

/-- Conversely, every data row × gene column pair appears in the
long form. -/
lemma meltFrom_mem {rows : List (String × List PVal)} {r : String × List PVal} (hr : r ∈ rows) :
    ∀ {l : List String} {j k : ℕ}, k < l.length →
      (r.1, l.getD k "", r.2.getD (j + k) PVal.nan) ∈ meltFrom rows j l
  | [], _, k => by
    intro h
    simp at h
  | g :: gs, j, 0 => by
    intro _
    rw [meltFrom, List.mem_append]
    exact Or.inl (List.mem_map.mpr ⟨r, hr, by simp⟩)
  | g :: gs, j, k + 1 => by
    intro hk
    rw [meltFrom, List.mem_append]
    refine Or.inr ?_
    have := meltFrom_mem hr (l := gs) (j := j + 1) (k := k) (by simpa using hk)
    simpa [List.getD_cons_succ, Nat.add_assoc, Nat.add_comm 1 k] using this

/-- Running `find?` over one melted column segment, when the target row is
present and row names are distinct: the unique matching entry is
found. -/
lemma find?_seg_some {r : String × List PVal} (g : String) (j : ℕ) :
    ∀ {rs : List (String × List PVal)}, (rs.map Prod.fst).Nodup → r ∈ rs →
      (rs.map (fun x => (x.1, g, x.2.getD j PVal.nan))).find? (fun e => e.1 == r.1 && e.2.1 == g)
        = some (r.1, g, r.2.getD j PVal.nan)
  | [], _, hr => by
    simp at hr
  | x :: rs, hn, hr => by
    rcases List.mem_cons.mp hr with rfl | hr
    · rw [List.map_cons, List.find?_cons_of_pos _ (by simp)]
    · have hx : x.1 ≠ r.1 := by
        intro hcontra
        have : r.1 ∈ rs.map Prod.fst := List.mem_map.mpr ⟨r, hr, rfl⟩
        rw [← hcontra] at this
        exact (List.nodup_cons.mp (by simpa using hn)).1 this
      rw [List.map_cons, List.find?_cons_of_neg _ (by simp [hx])]
      exact find?_seg_some g j (by simpa using (List.nodup_cons.mp (by simpa using hn)).2) hr

/-- Running `find?` over one melted column segment for a different gene finds
nothing. -/
lemma find?_seg_none {rs : List (String × List PVal)} {g g' : String} (s : String) (j : ℕ)
    (hg : g' ≠ g) :
    (rs.map (fun x => (x.1, g, x.2.getD j PVal.nan))).find?
      (fun e => e.1 == s && e.2.1 == g') = none := by
  rw [List.find?_eq_none]
  intro e he
  rcases List.mem_map.mp he with ⟨x, _, rfl⟩
  simp [Ne.symm hg]

/-- The central lookup lemma: with distinct row names and distinct
gene columns, `find?` over the whole long form returns exactly the
entry for the requested row and the gene at index `k`. -/
lemma find?_meltFrom {rows : List (String × List PVal)} {r : String × List PVal}
    (hn : (rows.map Prod.fst).Nodup) (hr : r ∈ rows) :
    ∀ {l : List String} {j k : ℕ}, l.Nodup → k < l.length →
      (meltFrom rows j l).find? (fun e => e.1 == r.1 && e.2.1 == l.getD k "")
        = some (r.1, l.getD k "", r.2.getD (j + k) PVal.nan)
  | [], _, k => by
    intro _ h
    simp at h
  | g :: gs, j, 0 => by
    intro _ _
    rw [List.getD_cons_zero, meltFrom, List.find?_append, find?_seg_some g j hn hr]
    rfl
  | g :: gs, j, k + 1 => by
    intro hgs hk
    have hk' : k < gs.length := by simpa using hk
    have hg : gs.getD k "" ≠ g := by
      intro hcontra
      have : g ∈ gs := by
        rw [← hcontra, List.getD_eq_getElem gs "" hk']
        exact List.getElem_mem hk'
      exact (List.nodup_cons.mp hgs).1 this
    rw [List.getD_cons_succ, meltFrom, List.find?_append, find?_seg_none r.1 j hg,
      Option.none_or]
    have := find?_meltFrom hn hr (l := gs) (j := j + 1) (k := k)
      (List.nodup_cons.mp hgs).2 hk'
    rw [this]
    have harith : j + 1 + k = j + (k + 1) := by omega
    rw [harith]

/-- With distinct row names and distinct gene columns, the
(sample, gene) keys of the long form are pairwise distinct, so the
pivot on line 188 succeeds. -/
lemma keys_nodup {rows : List (String × List PVal)} (hn : (rows.map Prod.fst).Nodup) :
    ∀ {gs : List String} {j : ℕ}, gs.Nodup →
      ((meltFrom rows j gs).map (fun e => (e.1, e.2.1))).Nodup
  | [], _ => by
    intro _
    simp [meltFrom]
  | g :: gs, j => by
    intro hgs
    rw [meltFrom, List.map_append, List.nodup_append]
    refine ⟨?_, keys_nodup hn (List.nodup_cons.mp hgs).2, ?_⟩
    · rw [List.map_map]
      have heq : ((fun e : String × String × PVal => (e.1, e.2.1)) ∘
          (fun r : String × List PVal => (r.1, g, r.2.getD j PVal.nan)))
          = (fun n => (n, g)) ∘ Prod.fst := by
        funext x
        rfl
      rw [heq, ← List.map_map]
      exact hn.map (fun a b hab => by simpa using hab)
    · intro a ha hb
      rcases List.mem_map.mp ha with ⟨x, hx, rfl⟩
      rcases List.mem_map.mp hx with ⟨r0, _, rfl⟩
      rcases List.mem_map.mp hb with ⟨e, he, hkey⟩
      rcases mem_meltFrom he with ⟨r', _, k, hk, rfl⟩
      have hgg : gs.getD k "" = g := congrArg Prod.snd hkey
      have hg2 : gs.getD k "" ∈ gs := by
        rw [List.getD_eq_getElem gs "" hk]
        exact List.getElem_mem hk
      rw [hgg] at hg2
      exact (List.nodup_cons.mp hgs).1 hg2

/-- The sample names occurring in the long form are exactly the data
row names (as soon as there is at least one gene column). -/
lemma mem_map_fst_meltFrom {rows : List (String × List PVal)} {gs : List String} {j : ℕ}
    {s : String} (hgs : gs ≠ []) :
    s ∈ (meltFrom rows j gs).map (fun e => e.1) ↔ s ∈ rows.map Prod.fst := by
  constructor
  · intro h
    rcases List.mem_map.mp h with ⟨e, he, rfl⟩
    rcases mem_meltFrom he with ⟨r, hr, k, hk, rfl⟩
    exact List.mem_map.mpr ⟨r, hr, rfl⟩
  · intro h
    rcases List.mem_map.mp h with ⟨r, hr, rfl⟩
    have hk : 0 < gs.length := List.length_pos.mpr hgs
    exact List.mem_map.mpr ⟨_, meltFrom_mem hr (j := j) (k := 0) hk, rfl⟩

/-- The gene names occurring in the long form are exactly the gene
columns (as soon as there is at least one data row). -/
lemma mem_map_gene_meltFrom {rows : List (String × List PVal)} {gs : List String} {j : ℕ}
    {g : String} (hrows : rows ≠ []) :
    g ∈ (meltFrom rows j gs).map (fun e => e.2.1) ↔ g ∈ gs := by
  constructor
  · intro h
    rcases List.mem_map.mp h with ⟨e, he, rfl⟩
    rcases mem_meltFrom he with ⟨r, hr, k, hk, rfl⟩
    show gs.getD k "" ∈ gs
    rw [List.getD_eq_getElem gs "" hk]
    exact List.getElem_mem hk
  · intro h
    rcases List.mem_iff_getElem.mp h with ⟨k, hk, rfl⟩
    rcases List.exists_mem_of_ne_nil rows hrows with ⟨r, hr⟩
    refine List.mem_map.mpr ⟨_, meltFrom_mem hr (j := j) (k := k) hk, ?_⟩
    show gs.getD k "" = gs[k]
    exact List.getD_eq_getElem gs "" hk

/-! ## The pipeline, unfolded -/

lemma idColName_processed (df : DataFrame) :
    (dropRef (clampDf (divideByRef df))).idColName = df.idColName := by
  rcases h : df.rows with _ | ⟨ref, rest⟩ <;>
    simp [divideByRef, clampDf, dropRef, h]

lemma geneCols_processed (df : DataFrame) :
    (dropRef (clampDf (divideByRef df))).geneCols = df.geneCols := by
  rcases h : df.rows with _ | ⟨ref, rest⟩ <;>
    simp [divideByRef, clampDf, dropRef, h]

/-- The row transformation lines 173–176 apply to every sample row:
divide by the reference row, then clamp every cell. -/
def transRow (refVals : List PVal) (r : String × List PVal) : String × List PVal :=
  (r.1, (divRow refVals r.2).map clampCell)

lemma processedRows_cons {df : DataFrame} {ref rest} (hrows : df.rows = ref :: rest) :
    processedRows df = rest.map (transRow ref.2) := by
  unfold processedRows dropRef clampDf divideByRef
  rw [hrows]
  simp [List.map_map, Function.comp_def, transRow]

lemma melt_processed {df : DataFrame} (hid : df.idColName = "Species") :
    melt (dropRef (clampDf (divideByRef df))) = Except.ok (longForm df) := by
  unfold melt
  rw [idColName_processed, hid, if_pos rfl, geneCols_processed]
  rfl

/-- When the table is well-formed enough for the pivot to succeed,
`main`'s lines 172–188 produce exactly the pivoted matrix of the
long form. -/
lemma runPipeline_eq_ok {df : DataFrame} (hid : df.idColName = "Species")
    (hkeys : ((longForm df).map (fun e => (e.1, e.2.1))).Nodup) :
    runPipeline df = Except.ok (pivotMatrix (longForm df)) := by
  unfold runPipeline
  rw [melt_processed hid]
  show pivot (longForm df) = _
  unfold pivot
  rw [if_pos hkeys]

/-- Conversely, any successfully produced matrix is the pivoted matrix
of the long form. -/
lemma matrix_of_ok {df : DataFrame} {m : RecoveryMatrix}
    (h : runPipeline df = Except.ok m) : m = pivotMatrix (longForm df) := by
  unfold runPipeline melt at h
  by_cases hid : (dropRef (clampDf (divideByRef df))).idColName = "Species"
  · rw [if_pos hid] at h
    have h2 : pivot (meltFrom (dropRef (clampDf (divideByRef df))).rows 0
        (dropRef (clampDf (divideByRef df))).geneCols) = Except.ok m := h
    rw [geneCols_processed] at h2
    change pivot (longForm df) = Except.ok m at h2
    unfold pivot at h2
    by_cases hkeys : ((longForm df).map (fun e => (e.1, e.2.1))).Nodup
    · rw [if_pos hkeys] at h2
      injection h2 with h3
      exact h3.symm
    · rw [if_neg hkeys] at h2
      cases h2
  · rw [if_neg hid] at h
    cases h

/-! ## Cell values -/

/-- One transformed cell: the original cell divided by the matching
reference cell, clamped. -/
lemma transRow_getD {refVals : List PVal} {r : String × List PVal} {k : ℕ}
    (h1 : k < r.2.length) (h2 : k < refVals.length) :
    (transRow refVals r).2.getD k PVal.nan
      = clampCell ((r.2.getD k PVal.nan).div (refVals.getD k PVal.nan)) := by
  have hz : k < (r.2.zip refVals).length := by
    rw [List.length_zip]
    exact lt_min h1 h2
  have hd : k < (divRow refVals r.2).length := by
    simpa [divRow] using hz
  have hm : k < ((divRow refVals r.2).map clampCell).length := by
    simpa using hd
  show ((divRow refVals r.2).map clampCell).getD k PVal.nan = _
  rw [List.getD_eq_getElem _ _ hm, List.getElem_map]
  show clampCell (divRow refVals r.2)[k] = _
  unfold divRow
  rw [List.getElem_map, List.getElem_zip, List.getD_eq_getElem _ _ h1,
    List.getD_eq_getElem _ _ h2]

/-- Transforming the rows does not touch the identifier values. -/
lemma names_trans {rest : List (String × List PVal)} (refVals : List PVal)
    (hnames : (rest.map Prod.fst).Nodup) :
    ((rest.map (transRow refVals)).map Prod.fst).Nodup := by
  rw [List.map_map]
  have : Prod.fst ∘ transRow refVals
      = (Prod.fst : String × List PVal → String) := by
    funext x
    rfl
  rw [this]
  exact hnames

/-- With distinct sample names and distinct gene columns, the pivot
index of the processed table is duplicate-free. -/
lemma longForm_keys_nodup {df : DataFrame} {ref rest} (hrows : df.rows = ref :: rest)
    (hnames : (rest.map Prod.fst).Nodup) (hgenes : df.geneCols.Nodup) :
    ((longForm df).map (fun e => (e.1, e.2.1))).Nodup := by
  unfold longForm
  rw [processedRows_cons hrows]
  exact keys_nodup (names_trans ref.2 hnames) hgenes

/-- The central cell lemma: for a well-formed table, the Recovery
Matrix cell at (sample row `r`, gene column `k`) is the transformed
cell of that row at position `k`. -/
lemma cell_value {df : DataFrame} {ref rest} (hrows : df.rows = ref :: rest)
    (hnames : (rest.map Prod.fst).Nodup) (hgenes : df.geneCols.Nodup)
    {r : String × List PVal} (hr : r ∈ rest) {k : ℕ} (hk : k < df.geneCols.length) :
    (pivotMatrix (longForm df)).cellOf r.1 (df.geneCols.getD k "")
      = (transRow ref.2 r).2.getD k PVal.nan := by
  show lookupLong (longForm df) r.1 (df.geneCols.getD k "") = _
  unfold lookupLong longForm
  rw [processedRows_cons hrows]
  have hr' : transRow ref.2 r ∈ rest.map (transRow ref.2) := List.mem_map_of_mem _ hr
  have hn' := names_trans ref.2 hnames
  have hfind := find?_meltFrom hn' hr' (l := df.geneCols) (j := 0) (k := k) hgenes hk
  simp only [transRow, Nat.zero_add] at hfind
  rw [hfind]
  rfl

/-- A cell value that is a number in `[0, 1]`. -/
def inUnit (v : PVal) : Prop :=
  ∃ q : ℚ, v = PVal.num q ∧ 0 ≤ q ∧ q ≤ 1

/-- Division of two numbers with a non-zero divisor is exact rational
division. -/
lemma div_num_of_ne {sq rq : ℚ} (hr : rq ≠ 0) :
    (PVal.num sq).div (PVal.num rq) = PVal.num (sq / rq) := by
  simp only [PVal.div, if_neg hr]

/-- A number below 1 survives the clamp unchanged. -/
lemma clampCell_num_lt {q : ℚ} (h : q < 1) : clampCell (PVal.num q) = PVal.num q := by
  simp [clampCell, PVal.lt, h]

/-- A number at or above 1 is capped at exactly 1. -/
lemma clampCell_num_ge {q : ℚ} (h : ¬q < 1) : clampCell (PVal.num q) = PVal.num 1 := by
  simp [clampCell, PVal.lt, h]

/-- Dividing a ratio below the reference: the exact ratio survives the
clamp. -/
lemma clamp_div_of_lt {sq rq : ℚ} (hr : 0 < rq) (hs : sq < rq) :
    clampCell ((PVal.num sq).div (PVal.num rq)) = PVal.num (sq / rq) := by
  rw [div_num_of_ne (ne_of_gt hr)]
  exact clampCell_num_lt ((div_lt_one hr).mpr hs)

/-- Dividing a ratio at or above the reference: the clamp caps the
cell at exactly 1. -/
lemma clamp_div_of_ge {sq rq : ℚ} (hr : 0 < rq) (hs : rq ≤ sq) :
    clampCell ((PVal.num sq).div (PVal.num rq)) = PVal.num 1 := by
  rw [div_num_of_ne (ne_of_gt hr)]
  exact clampCell_num_ge (not_lt.mpr ((one_le_div hr).mpr hs))

/-- Dividing a non-negative value by a zero reference produces `inf`
(positive numerator) or `NaN` (zero numerator)… -/
lemma div_zero_ref {sq : ℚ} :
    (PVal.num sq).div (PVal.num 0)
      = (if sq = 0 then PVal.nan else if 0 < sq then PVal.pinf else PVal.ninf) := by
  simp [PVal.div]

/-- Moreover the clamp then replaces both with exactly 1. -/
lemma clamp_div_zero_ref {sq : ℚ} (hs : 0 ≤ sq) :
    clampCell ((PVal.num sq).div (PVal.num 0)) = PVal.num 1 := by
  rw [div_zero_ref]
  rcases eq_or_lt_of_le hs with h | h
  · rw [if_pos h.symm]
    rfl
  · rw [if_neg (ne_of_gt h), if_pos h]
    rfl

/-- Any non-negative cell divided by any non-negative reference lands
in `[0, 1]` after the clamp. -/
lemma clamp_div_inUnit {sq rq : ℚ} (hs : 0 ≤ sq) (hr : 0 ≤ rq) :
    inUnit (clampCell ((PVal.num sq).div (PVal.num rq))) := by
  rcases eq_or_lt_of_le hr with hz | hpos
  · rw [← hz, clamp_div_zero_ref hs]
    exact ⟨1, rfl, by norm_num, le_refl 1⟩
  · rcases lt_or_le sq rq with hlt | hge
    · rw [clamp_div_of_lt hpos hlt]
      exact ⟨sq / rq, rfl, div_nonneg hs (le_of_lt hpos),
        le_of_lt ((div_lt_one hpos).mpr hlt)⟩
    · rw [clamp_div_of_ge hpos hge]
      exact ⟨1, rfl, by norm_num, le_refl 1⟩

lemma processedRows_nil {df : DataFrame} (h : df.rows = []) : processedRows df = [] := by
  unfold processedRows dropRef clampDf divideByRef
  rw [h]
  simp [h]

/-! ## Claim theorems -/

/-- Claim C1 (confirmed): for every well-formed length table, for every
sample row and gene column with reference value `rq > 0` and sample
value `sq` with `0 ≤ sq < rq`, the corresponding Recovery Matrix cell
equals exactly `sq / rq`; and for every such pair with `sq ≥ rq` the
cell equals exactly `1.0`. -/
theorem C1_recovery_cell_exact (df : DataFrame) (ref : String × List PVal)
    (rest : List (String × List PVal))
    (hid : df.idColName = "Species") (hrows : df.rows = ref :: rest)
    (hlen : ∀ r ∈ df.rows, r.2.length = df.geneCols.length)
    (hnames : (rest.map Prod.fst).Nodup) (hgenes : df.geneCols.Nodup)
    (r : String × List PVal) (hr : r ∈ rest) (k : ℕ) (hk : k < df.geneCols.length)
    (rq sq : ℚ) (href : ref.2.getD k PVal.nan = PVal.num rq)
    (hs : r.2.getD k PVal.nan = PVal.num sq)
    (hrq : 0 < rq) (_hsq : 0 ≤ sq) :
    ∃ m, runPipeline df = Except.ok m ∧
      m.cellOf r.1 (df.geneCols.getD k "")
        = (if sq < rq then PVal.num (sq / rq) else PVal.num 1) := by
  refine ⟨_, runPipeline_eq_ok hid (longForm_keys_nodup hrows hnames hgenes), ?_⟩
  rw [cell_value hrows hnames hgenes hr hk]
  have h1 : k < r.2.length := by
    rw [hlen r (by rw [hrows]; exact List.mem_cons_of_mem _ hr)]
    exact hk
  have h2 : k < ref.2.length := by
    rw [hlen ref (by rw [hrows]; exact List.mem_cons_self _ _)]
    exact hk
  rw [transRow_getD h1 h2, hs, href]
  by_cases hlt : sq < rq
  · rw [if_pos hlt]
    exact clamp_div_of_lt hrq hlt
  · rw [if_neg hlt]
    exact clamp_div_of_ge hrq (not_lt.mp hlt)

/-- Witness for C1 on the spec's worked scenario: `Sample1`'s `geneA`
cell is exactly `50 / 100`. -/
theorem C1_recovery_cell_exact_witness :
    ∃ m, runPipeline scenarioTable = Except.ok m ∧
      m.cellOf "Sample1" "geneA"
        = (if (50 : ℚ) < 100 then PVal.num (50 / 100) else PVal.num 1) :=
  C1_recovery_cell_exact scenarioTable ("MeanLength", [PVal.num 100, PVal.num 200])
    [("Sample1", [PVal.num 50, PVal.num 200]), ("Sample2", [PVal.num 150, PVal.num 50])]
    rfl rfl (by decide) (by decide) (by decide)
    ("Sample1", [PVal.num 50, PVal.num 200]) (by decide) 0 (by decide)
    100 50 rfl rfl (by decide) (by decide)

/-- Claim C2 (confirmed): for every valid input table (all cells
non-negative numbers), every cell of a successfully produced Recovery
Matrix lies in the closed interval `[0, 1]`. -/
theorem C2_cells_in_unit_interval (df : DataFrame) (m : RecoveryMatrix)
    (hm : runPipeline df = Except.ok m)
    (hlen : ∀ r ∈ df.rows, r.2.length = df.geneCols.length)
    (hvalid : ∀ r ∈ df.rows, ∀ v ∈ r.2, ∃ q : ℚ, v = PVal.num q ∧ 0 ≤ q)
    (s g : String) (hs : s ∈ m.samples) (hg : g ∈ m.genes) :
    ∃ q : ℚ, m.cellOf s g = PVal.num q ∧ 0 ≤ q ∧ q ≤ 1 := by
  rw [matrix_of_ok hm] at hs hg ⊢
  simp only [pivotMatrix, List.mem_insertionSort, List.mem_dedup] at hs hg
  rcases List.mem_map.mp hs with ⟨e₁, he₁, rfl⟩
  rcases List.mem_map.mp hg with ⟨e₂, he₂, rfl⟩
  rcases mem_meltFrom he₁ with ⟨r₁, hr₁, k₁, hk₁, rfl⟩
  rcases mem_meltFrom he₂ with ⟨r₂, hr₂, k₂, hk₂, rfl⟩
  -- the combined entry for (r₁'s name, gene k₂) is in the long form
  have hcomb := meltFrom_mem hr₁ (l := df.geneCols) (j := 0) (k := k₂) hk₂
  have hsome : ((longForm df).find?
      (fun e => e.1 == r₁.1 && e.2.1 == df.geneCols.getD k₂ "")).isSome := by
    rw [List.find?_isSome]
    exact ⟨_, hcomb, by simp⟩
  rcases Option.isSome_iff_exists.mp hsome with ⟨e, hfind⟩
  have hcell : (pivotMatrix (longForm df)).cellOf r₁.1 (df.geneCols.getD k₂ "")
      = e.2.2 := by
    show lookupLong (longForm df) r₁.1 (df.geneCols.getD k₂ "") = e.2.2
    unfold lookupLong
    rw [hfind]
  rw [hcell]
  -- every value in the long form is a clamped quotient of valid cells
  rcases mem_meltFrom (List.mem_of_find?_eq_some hfind) with ⟨r₃, hr₃, k₃, hk₃, rfl⟩
  rcases hdf : df.rows with _ | ⟨ref, rest⟩
  · rw [processedRows_nil hdf] at hr₃
    simp at hr₃
  · rw [processedRows_cons hdf] at hr₃
    rcases List.mem_map.mp hr₃ with ⟨r₀, hr₀, rfl⟩
    have hb₀ : k₃ < r₀.2.length := by
      rw [hlen r₀ (by rw [hdf]; exact List.mem_cons_of_mem _ hr₀)]
      exact hk₃
    have hbr : k₃ < ref.2.length := by
      rw [hlen ref (by rw [hdf]; exact List.mem_cons_self _ _)]
      exact hk₃
    show ∃ q : ℚ, (transRow ref.2 r₀).2.getD (0 + k₃) PVal.nan = PVal.num q ∧ 0 ≤ q ∧ q ≤ 1
    rw [Nat.zero_add, transRow_getD hb₀ hbr]
    have hv₀ := hvalid r₀ (by rw [hdf]; exact List.mem_cons_of_mem _ hr₀)
      (r₀.2.getD k₃ PVal.nan)
      (by rw [List.getD_eq_getElem _ _ hb₀]; exact List.getElem_mem hb₀)
    have hvr := hvalid ref (by rw [hdf]; exact List.mem_cons_self _ _)
      (ref.2.getD k₃ PVal.nan)
      (by rw [List.getD_eq_getElem _ _ hbr]; exact List.getElem_mem hbr)
    rcases hv₀ with ⟨q₀, hq₀, hq₀pos⟩
    rcases hvr with ⟨qr, hqr, hqrpos⟩
    rw [hq₀, hqr]
    exact clamp_div_inUnit hq₀pos hqrpos

/-- Witness for C2 on the spec's worked scenario: the `Sample2`
`geneB` cell is a number in `[0, 1]`. -/
theorem C2_cells_in_unit_interval_witness :
    ∃ q : ℚ, (matrixOf (runPipeline scenarioTable)).cellOf "Sample2" "geneB" = PVal.num q
      ∧ 0 ≤ q ∧ q ≤ 1 := by
  have hok : runPipeline scenarioTable
      = Except.ok (matrixOf (runPipeline scenarioTable)) := by
    rw [runPipeline_eq_ok rfl (by decide)]
    rfl
  exact C2_cells_in_unit_interval scenarioTable _ hok (by decide)
    (by
      intro r hr v hv
      fin_cases hr <;> fin_cases hv <;> exact ⟨_, rfl, by norm_num⟩)
    "Sample2" "geneB" (by decide) (by decide)

/-- Claim C6 (counterexample): a zero or negative override does *not*
make `get_figure_dimensions` fail — there is no
`InvalidDimensionError` anywhere in the source.  A zero
`figure_height` silently falls back to the computed default and a
negative `gene_text_size` is returned unchanged, and both are then
consumed by the renderer. -/
theorem C6_counterexample_no_dimension_error :
    get_figure_dimensions smallMatrix none (some 0) none (some (-5))
      = (1, 2 / 3, 10, -5) := by
  norm_num [get_figure_dimensions, smallMatrix]

/-- Claim C6 (amended): the heuristic performs no validation at all: a
zero override is treated exactly like an absent one (Python
truthiness) and a non-zero (in particular negative) override is
returned unchanged; the function never fails. -/
theorem C6_amended_no_validation (m : RecoveryMatrix) (fl st gt : Option ℤ)
    (v : ℤ) (hv : v ≠ 0) :
    get_figure_dimensions m fl (some 0) st gt = get_figure_dimensions m fl none st gt
    ∧ (get_figure_dimensions m fl (some v) st gt).2.1 = (v : ℚ) := by
  constructor
  · rfl
  · show (if v = 0 then (m.samples.length : ℚ) / 3 else (v : ℚ)) = (v : ℚ)
    rw [if_neg hv]

/-- Witness for the amended C6. -/
theorem C6_amended_no_validation_witness :
    get_figure_dimensions smallMatrix none (some 0) none none
        = get_figure_dimensions smallMatrix none none none none
    ∧ (get_figure_dimensions smallMatrix none (some (-5)) none none).2.1 = ((-5 : ℤ) : ℚ) :=
  C6_amended_no_validation smallMatrix none none none (-5) (by decide)

/-- Claim C7 (counterexample): the heuristic is *not* override-respecting
for every explicitly supplied value: an explicit `figure_height = 0`
is not returned unchanged but replaced by the computed default
`2 / 3`. -/
theorem C7_counterexample_zero_override_ignored :
    (get_figure_dimensions smallMatrix none (some 0) none none).2.1 ≠ (0 : ℚ) := by
  show (if (0 : ℤ) = 0 then (smallMatrix.samples.length : ℚ) / 3 else ((0 : ℤ) : ℚ)) ≠ 0
  norm_num [smallMatrix]

/-- Claim C7 (amended): the heuristic is a pure function — two calls on
the same inputs are identical — and every explicitly supplied
*non-zero* override is returned unchanged regardless of the matrix
shape; a zero override is instead treated as unset. -/
theorem C7_amended_det_and_nonzero_overrides (m : RecoveryMatrix)
    (fl fh st gt : ℤ) (hfl : fl ≠ 0) (hfh : fh ≠ 0) (hst : st ≠ 0) (hgt : gt ≠ 0) :
    get_figure_dimensions m (some fl) (some fh) (some st) (some gt)
        = get_figure_dimensions m (some fl) (some fh) (some st) (some gt)
    ∧ get_figure_dimensions m (some fl) (some fh) (some st) (some gt)
        = ((fl : ℚ), (fh : ℚ), (st : ℚ), (gt : ℚ)) := by
  refine ⟨rfl, ?_⟩
  show ((if fl = 0 then (m.genes.length : ℚ) / 3 else (fl : ℚ)),
    (if fh = 0 then (m.samples.length : ℚ) / 3 else (fh : ℚ)),
    (if st = 0 then 10 else (st : ℚ)),
    (if gt = 0 then 10 else (gt : ℚ))) = _
  rw [if_neg hfl, if_neg hfh, if_neg hst, if_neg hgt]

/-- Witness for the amended C7. -/
theorem C7_amended_det_and_nonzero_overrides_witness :
    get_figure_dimensions smallMatrix (some 7) (some 8) (some 14) (some (-3))
        = get_figure_dimensions smallMatrix (some 7) (some 8) (some 14) (some (-3))
    ∧ get_figure_dimensions smallMatrix (some 7) (some 8) (some 14) (some (-3))
        = (((7 : ℤ) : ℚ), ((8 : ℤ) : ℚ), ((14 : ℤ) : ℚ), ((-3 : ℤ) : ℚ)) :=
  C7_amended_det_and_nonzero_overrides smallMatrix 7 8 14 (-3)
    (by decide) (by decide) (by decide) (by decide)

/-- Claim C8 (confirmed): with no overrides, the heuristic returns text
sizes of 10 points, a height of `samples / 3` inches and a length of
`genes / 3` inches; in particular a 30-sample matrix gets height
exactly 10.0 and a 60-gene matrix gets length exactly 20.0. -/
theorem C8_default_dimensions (m : RecoveryMatrix) :
    get_figure_dimensions m none none none none
        = ((m.genes.length : ℚ) / 3, (m.samples.length : ℚ) / 3, 10, 10)
    ∧ (m.samples.length = 30 →
        (get_figure_dimensions m none none none none).2.1 = 10)
    ∧ (m.genes.length = 60 →
        (get_figure_dimensions m none none none none).1 = 20) := by
  refine ⟨rfl, ?_, ?_⟩
  · intro h
    show (m.samples.length : ℚ) / 3 = 10
    rw [h]
    norm_num
  · intro h
    show (m.genes.length : ℚ) / 3 = 20
    rw [h]
    norm_num

/-- Witness for C8 on a 30-sample × 60-gene matrix. -/
theorem C8_default_dimensions_witness :
    (get_figure_dimensions bigMatrix none none none none).2.1 = 10
    ∧ (get_figure_dimensions bigMatrix none none none none).1 = 20 :=
  ⟨(C8_default_dimensions bigMatrix).2.1 (by decide),
   (C8_default_dimensions bigMatrix).2.2 (by decide)⟩

/-- Claim C9 (counterexample): the loader does *not* treat the first
column as the identifier whatever its header name: the very same table
succeeds when the column is called `Species` and fails at the melt
step when it is called `Sample`. -/
theorem C9_counterexample_id_name_matters :
    isOkE (runPipeline scenarioTable) = true
    ∧ isOkE (runPipeline renamedIdTable) = false
    ∧ renamedIdTable.geneCols = scenarioTable.geneCols
    ∧ renamedIdTable.rows = scenarioTable.rows := by
  exact ⟨by decide, by decide, by decide, by decide⟩

/-- Claim C9 (amended): `melt` hard-codes `id_vars=['Species']`, so the
pipeline requires the identifier column to be named exactly
`Species`; a table whose first column has any other name (and none of
whose gene columns is named `Species`) fails with a `KeyError` at the
melt step. -/
theorem C9_amended_requires_species_name (df : DataFrame)
    (hid : df.idColName ≠ "Species") (_hshadow : "Species" ∉ df.geneCols) :
    runPipeline df
      = Except.error "KeyError: id_vars [Species] are not present in the DataFrame" := by
  unfold runPipeline melt
  rw [if_neg (by rw [idColName_processed]; exact hid)]
  rfl

/-- Witness for the amended C9. -/
theorem C9_amended_requires_species_name_witness :
    runPipeline renamedIdTable
      = Except.error "KeyError: id_vars [Species] are not present in the DataFrame" :=
  C9_amended_requires_species_name renamedIdTable (by decide) (by decide)

/-- Claim C4 (counterexample): a zero reference length does *not*
propagate an undefined/NaN cell into the Recovery Matrix.  The run
indeed does not fail, but the capping step replaces the `inf`/`NaN`
quotient with exactly `1.0`: the matrix cell for `Sample1`/`geneA` of
the zero-reference table is `1.0`, not `NaN`. -/
theorem C4_counterexample_zero_ref_cell_is_one :
    isOkE (runPipeline zeroRefTable) = true
    ∧ (matrixOf (runPipeline zeroRefTable)).cellOf "Sample1" "geneA" = PVal.num 1
    ∧ PVal.num 1 ≠ PVal.nan :=
  ⟨by decide, by decide, by decide⟩

/-- Claim C4 (amended): for every well-formed table with a zero
reference value for some gene, the division step produces an undefined
value (`NaN` for a zero sample length, `+inf` otherwise), the run does
not fail, and the capping step turns the corresponding Recovery Matrix
cell into exactly `1.0` — not `NaN`. -/
theorem C4_amended_zero_ref_clamped_to_one (df : DataFrame)
    (ref : String × List PVal) (rest : List (String × List PVal))
    (hid : df.idColName = "Species") (hrows : df.rows = ref :: rest)
    (hlen : ∀ r ∈ df.rows, r.2.length = df.geneCols.length)
    (hnames : (rest.map Prod.fst).Nodup) (hgenes : df.geneCols.Nodup)
    (r : String × List PVal) (hr : r ∈ rest) (k : ℕ) (hk : k < df.geneCols.length)
    (sq : ℚ) (href : ref.2.getD k PVal.nan = PVal.num 0)
    (hs : r.2.getD k PVal.nan = PVal.num sq) (hsq : 0 ≤ sq) :
    (r.2.getD k PVal.nan).div (ref.2.getD k PVal.nan)
        = (if sq = 0 then PVal.nan else PVal.pinf)
    ∧ ∃ m, runPipeline df = Except.ok m
        ∧ m.cellOf r.1 (df.geneCols.getD k "") = PVal.num 1 := by
  constructor
  · rw [hs, href, div_zero_ref]
    by_cases h : sq = 0
    · rw [if_pos h, if_pos h]
    · rw [if_neg h, if_neg h, if_pos (lt_of_le_of_ne hsq (Ne.symm h))]
  · refine ⟨_, runPipeline_eq_ok hid (longForm_keys_nodup hrows hnames hgenes), ?_⟩
    rw [cell_value hrows hnames hgenes hr hk]
    have h1 : k < r.2.length := by
      rw [hlen r (by rw [hrows]; exact List.mem_cons_of_mem _ hr)]
      exact hk
    have h2 : k < ref.2.length := by
      rw [hlen ref (by rw [hrows]; exact List.mem_cons_self _ _)]
      exact hk
    rw [transRow_getD h1 h2, hs, href]
    exact clamp_div_zero_ref hsq

/-- Witness for the amended C4 on the zero-reference table. -/
theorem C4_amended_zero_ref_clamped_to_one_witness :
    ((("Sample1", [PVal.num 5]) : String × List PVal).2.getD 0 PVal.nan).div
        ((("MeanLength", [PVal.num 0]) : String × List PVal).2.getD 0 PVal.nan)
      = (if (5 : ℚ) = 0 then PVal.nan else PVal.pinf)
    ∧ ∃ m, runPipeline zeroRefTable = Except.ok m
        ∧ m.cellOf "Sample1" "geneA" = PVal.num 1 :=
  C4_amended_zero_ref_clamped_to_one zeroRefTable ("MeanLength", [PVal.num 0])
    [("Sample1", [PVal.num 5])] rfl rfl (by decide) (by decide) (by decide)
    ("Sample1", [PVal.num 5]) (by decide) 0 (by decide) 5 rfl rfl (by decide)

/-- Claim C5 (counterexample): the renderer does *not* fix the colour
scale to `[0, 1]`: only `vmin=0` is passed to `sns.heatmap`, `vmax` is
left unset, so seaborn anchors the dark extreme at the data maximum.
On a table whose single ratio is `1/2` the effective scale is
`[0, 1/2]`, not `[0, 1]`. -/
theorem C5_counterexample_vmax_tracks_data :
    (heatmapCallOf (matrixOf (runPipeline halfTable))).vmax ≠ some 1
    ∧ (heatmapCallOf (matrixOf (runPipeline halfTable))).vmin = some 0
    ∧ effectiveVmax (matrixOf (runPipeline halfTable)) = PVal.num (1 / 2)
    ∧ PVal.num (1 / 2) ≠ PVal.num 1 := by
  refine ⟨by decide, by decide, ?_, by simp [PVal.num.injEq]⟩
  show matrixNanMax (matrixOf (runPipeline halfTable)) = PVal.num (1 / 2)
  simp +decide [matrixNanMax, RecoveryMatrix.cells, matrixOf, runPipeline, melt, meltFrom,
    divideByRef, clampDf, dropRef, divRow, clampCell, PVal.div, PVal.lt, pivot, pivotMatrix,
    lookupLong, Except.bind, halfTable, List.insertionSort, List.orderedInsert,
    List.dedup, PVal.nmax]
  norm_num

/-- Claim C5 (amended): for every Recovery Matrix, the heatmap is
invoked with `vmin` explicitly fixed at 0 and the sequential
light-to-dark `bone_r` colour map, but `vmax` is left unset, so the
upper anchor of the colour scale is the matrix's own maximum rather
than a fixed 1. -/
theorem C5_amended_vmin_fixed_vmax_data (m : RecoveryMatrix) :
    (heatmapCallOf m).vmin = some 0
    ∧ (heatmapCallOf m).vmax = none
    ∧ (heatmapCallOf m).cmap = "bone_r"
    ∧ effectiveVmax m = matrixNanMax m :=
  ⟨rfl, rfl, rfl, rfl⟩

/-- Projecting the identifier out of the transformed rows gives the
original identifiers. -/
lemma map_fst_trans (refVals : List PVal) (rest : List (String × List PVal)) :
    (rest.map (transRow refVals)).map Prod.fst = rest.map Prod.fst := by
  rw [List.map_map]
  have : Prod.fst ∘ transRow refVals
      = (Prod.fst : String × List PVal → String) := by
    funext x
    rfl
  rw [this]

/-- Sorting the distinct values of a list equals sorting any
duplicate-free list with the same members. -/
lemma sort_dedup_eq_sort {l₁ l₂ : List String} (h₂ : l₂.Nodup)
    (hmem : ∀ a, a ∈ l₁ ↔ a ∈ l₂) :
    List.insertionSort strLeR l₁.dedup = List.insertionSort strLeR l₂ := by
  apply List.eq_of_perm_of_sorted (r := strLeR)
  · exact ((List.perm_insertionSort strLeR l₁.dedup).trans
      ((List.perm_ext_iff_of_nodup (List.nodup_dedup l₁) h₂).mpr
        (fun a => (List.mem_dedup).trans (hmem a)))).trans
      (List.perm_insertionSort strLeR l₂).symm
  · exact List.sorted_insertionSort strLeR _
  · exact List.sorted_insertionSort strLeR _

/-- Claim C3 (counterexample): the Recovery Matrix does *not* keep the
first-appearance order of the input.  On a table with gene columns
`[geneB, geneA]` and sample rows `[Zeb, Ann]`, the pivot sorts both
axes lexicographically: the matrix columns come out `[geneA, geneB]`
and the rows `[Ann, Zeb]`. -/
theorem C3_counterexample_order_sorted_not_input :
    isOkE (runPipeline unsortedTable) = true
    ∧ unsortedTable.geneCols = ["geneB", "geneA"]
    ∧ (matrixOf (runPipeline unsortedTable)).genes = ["geneA", "geneB"]
    ∧ (matrixOf (runPipeline unsortedTable)).samples = ["Ann", "Zeb"]
    ∧ (["geneA", "geneB"] : List String) ≠ ["geneB", "geneA"]
    ∧ (["Ann", "Zeb"] : List String) ≠ ["Zeb", "Ann"] :=
  ⟨by decide, by decide, by decide, by decide, by decide, by decide⟩

/-- Claim C3 (amended): for every well-formed table with `R` data rows
and `C = 1 + genes` columns, the Recovery Matrix has exactly `R − 1`
rows and `C − 1` columns, and the rows and columns are the sample and
gene identifiers in lexicographically *sorted* order (not
first-appearance order). -/
theorem C3_amended_shape_and_sorted_order (df : DataFrame)
    (ref : String × List PVal) (rest : List (String × List PVal))
    (hid : df.idColName = "Species") (hrows : df.rows = ref :: rest)
    (hnames : (rest.map Prod.fst).Nodup) (hgenes : df.geneCols.Nodup)
    (hrest : rest ≠ []) (hgene0 : df.geneCols ≠ []) :
    ∃ m, runPipeline df = Except.ok m
      ∧ m.samples.length = df.rows.length - 1
      ∧ m.genes.length = df.geneCols.length
      ∧ m.samples = List.insertionSort strLeR (rest.map Prod.fst)
      ∧ m.genes = List.insertionSort strLeR df.geneCols := by
  have hsam : (pivotMatrix (longForm df)).samples
      = List.insertionSort strLeR (rest.map Prod.fst) := by
    show List.insertionSort strLeR ((longForm df).map (fun e => e.1)).dedup = _
    apply sort_dedup_eq_sort hnames
    intro a
    unfold longForm
    rw [processedRows_cons hrows, mem_map_fst_meltFrom hgene0, map_fst_trans]
  have hgen : (pivotMatrix (longForm df)).genes
      = List.insertionSort strLeR df.geneCols := by
    show List.insertionSort strLeR ((longForm df).map (fun e => e.2.1)).dedup = _
    apply sort_dedup_eq_sort hgenes
    intro a
    unfold longForm
    rw [processedRows_cons hrows]
    exact mem_map_gene_meltFrom (fun h => hrest (List.map_eq_nil_iff.mp h))
  refine ⟨_, runPipeline_eq_ok hid (longForm_keys_nodup hrows hnames hgenes),
    ?_, ?_, hsam, hgen⟩
  · rw [hsam, (List.perm_insertionSort strLeR _).length_eq, List.length_map, hrows]
    simp
  · rw [hgen, (List.perm_insertionSort strLeR _).length_eq]

/-- Witness for the amended C3 on the deliberately unsorted table. -/
theorem C3_amended_shape_and_sorted_order_witness :
    ∃ m, runPipeline unsortedTable = Except.ok m
      ∧ m.samples.length = unsortedTable.rows.length - 1
      ∧ m.genes.length = unsortedTable.geneCols.length
      ∧ m.samples = List.insertionSort strLeR
          ([("Zeb", [PVal.num 10, PVal.num 20]),
            ("Ann", [PVal.num 30, PVal.num 40])].map Prod.fst)
      ∧ m.genes = List.insertionSort strLeR unsortedTable.geneCols :=
  C3_amended_shape_and_sorted_order unsortedTable
    ("MeanLength", [PVal.num 100, PVal.num 100])
    [("Zeb", [PVal.num 10, PVal.num 20]), ("Ann", [PVal.num 30, PVal.num 40])]
    rfl rfl (by decide) (by decide) (by decide) (by decide)

/-- Two sample rows sharing an identifier make the identifier column
of the melted frame duplicate. -/
lemma names_not_nodup_of_dup {rest : List (String × List PVal)} {i₁ i₂ : ℕ}
    (h₁ : i₁ < rest.length) (h₂ : i₂ < rest.length) (hne : i₁ ≠ i₂)
    (hdup : (rest.get ⟨i₁, h₁⟩).1 = (rest.get ⟨i₂, h₂⟩).1) :
    ¬(rest.map Prod.fst).Nodup := by
  intro hn
  have hinj := List.nodup_iff_injective_get.mp hn
  have hl₁ : i₁ < (rest.map Prod.fst).length := by simpa using h₁
  have hl₂ : i₂ < (rest.map Prod.fst).length := by simpa using h₂
  have hget : (rest.map Prod.fst).get ⟨i₁, hl₁⟩ = (rest.map Prod.fst).get ⟨i₂, hl₂⟩ := by
    rw [List.get_eq_getElem, List.get_eq_getElem, List.getElem_map, List.getElem_map]
    rw [List.get_eq_getElem, List.get_eq_getElem] at hdup
    exact hdup
  exact hne (by simpa using congrArg Fin.val (hinj hget))

/-- Claim C10 (confirmed): on every well-formed table in which two
sample rows carry the same identifier, the pipeline fails at the pivot
with the duplicate-index error, and `plt.savefig` is never reached, so
no output image is written. -/
theorem C10_duplicate_samples_fail_pivot (df : DataFrame)
    (ref : String × List PVal) (rest : List (String × List PVal))
    (hid : df.idColName = "Species") (hrows : df.rows = ref :: rest)
    (hgene0 : df.geneCols ≠ [])
    (i₁ i₂ : ℕ) (h₁ : i₁ < rest.length) (h₂ : i₂ < rest.length) (hne : i₁ ≠ i₂)
    (hdup : (rest.get ⟨i₁, h₁⟩).1 = (rest.get ⟨i₂, h₂⟩).1)
    (fl fh st gt : Option ℤ) (stem ftype : String) :
    runPipeline df = Except.error "Index contains duplicate entries, cannot reshape"
    ∧ writtenFiles (mainRun df fl fh st gt stem ftype) = [] := by
  have hnames_dup := names_not_nodup_of_dup h₁ h₂ hne hdup
  have hkeys : ¬((longForm df).map (fun e => (e.1, e.2.1))).Nodup := by
    intro hkeys
    apply hnames_dup
    unfold longForm at hkeys
    rw [processedRows_cons hrows] at hkeys
    rcases hgs : df.geneCols with _ | ⟨g0, gtl⟩
    · exact absurd hgs hgene0
    rw [hgs] at hkeys
    simp only [meltFrom] at hkeys
    rw [List.map_append, List.nodup_append] at hkeys
    have hseg := hkeys.1
    rw [List.map_map] at hseg
    have hcomp : ((fun e : String × String × PVal => (e.1, e.2.1)) ∘
        (fun r : String × List PVal => (r.1, g0, r.2.getD 0 PVal.nan)))
        = (fun n => (n, g0)) ∘ (Prod.fst : String × List PVal → String) := by
      funext x
      rfl
    rw [hcomp, ← List.map_map] at hseg
    have := List.Nodup.of_map _ hseg
    rw [map_fst_trans] at this
    exact this
  have hrun : runPipeline df
      = Except.error "Index contains duplicate entries, cannot reshape" := by
    unfold runPipeline
    rw [melt_processed hid]
    show pivot (longForm df) = _
    unfold pivot
    rw [if_neg hkeys]
  refine ⟨hrun, ?_⟩
  unfold mainRun
  rw [hrun]
  rfl

/-- Witness for C10 on the duplicated-sample table. -/
theorem C10_duplicate_samples_fail_pivot_witness :
    runPipeline dupSampleTable
        = Except.error "Index contains duplicate entries, cannot reshape"
    ∧ writtenFiles (mainRun dupSampleTable none none none none
        "recovery_heatmap" "png") = [] :=
  C10_duplicate_samples_fail_pivot dupSampleTable ("MeanLength", [PVal.num 100])
    [("Sample1", [PVal.num 50]), ("Sample1", [PVal.num 60])]
    rfl rfl (by decide) 0 1 (by decide) (by decide) (by decide) (by decide)
    none none none none "recovery_heatmap" "png"

end GeneRecoveryHeatmap
